import Mathlib

/-!
# Verification of the navigate-photoactivation hardware sequencer

Shallow embedding of the `Photoactivation` feature class
(`model/features/photoactivation.py`) of the navigate-photoactivation
plugin, together with the configuration record populated by the GUI
controller (`controller/photoactivation_controller.py`).

Modelling choices:
* Python floats are modelled as rationals (`ℚ`); the waveform arithmetic
  of the source (`location * scaling_factor`, `duration / 1000 * sample_rate`)
  is exact on the values of interest.
* Every DAQ/laser interaction is recorded as an `Event` in a trace, and
  nidaqmx task handles are natural-number ids allocated from a counter.
  Closing a task records its id in a `closed` list.  The external driver
  is modelled as not failing on its own: the trace records the operations
  the sequencer attempts (driver-level errors such as writing to a closed
  handle are outside the source under analysis, except where the source
  itself catches them, which is modelled by explicit failure flags in the
  environment).
* Python exceptions are modelled with `Except`, the error carrying the
  mutated object state at the point of the raise (Python `raise` leaves
  the object mutated, and the host later calls cleanup on that state).
-/

set_option allowUnsafeReducibility true in
attribute [semireducible] Rat.mul Rat.add Rat.inv Rat.sub Rat.ofScientific

namespace Photoactivation

abbrev TaskId := Nat

/-- The observable hardware interactions of the sequencer, in program order.
`sleepMs` is the event a settling delay (`time.sleep`) would emit; the
source contains no such call, so no embedded function ever emits it. -/
inductive Event where
  | createTask (id : TaskId) (name : String)
  | addDoChan (id : TaskId) (line : String)
  | addAoChan (id : TaskId) (chan : String)
  | cfgSampClk (id : TaskId) (rate : ℚ) (nsamps : Int)
  | cfgStartTrig (id : TaskId) (source : String)
  | writeDigitalBool (id : TaskId) (v : Bool) (autoStart : Bool)
  | writeDigitalSeq (id : TaskId) (vs : List Bool) (autoStart : Bool)
  | writeAnalog (id : TaskId) (wf : List ℚ)
  | warn (msg : String)
  | setPower (wavelength : Int) (power : ℚ)
  | turnOn (wavelength : Int)
  | turnOff (wavelength : Int)
  | waitUntilDone (id : TaskId)
  | stopTask (id : TaskId)
  | closeTask (id : TaskId)
  | sleepMs (ms : ℚ)
deriving DecidableEq, Repr

/-- Python exception classes raised by the embedded code. -/
inductive PyError where
  | keyError (k : String)
  | notImplementedError
  | valueError
  | attributeError
  | daqWriteError
deriving DecidableEq, Repr

/-- The `experiment["Photoactivation"]` configuration record: a key-value
store with the 13 keys the feature reads; an absent key is `none` and
reading it raises `KeyError` (the 13 keys are exactly those written by
`PhotoactivationController.update_configuration`). -/
structure Config where
  x_pinout : Option String
  y_pinout : Option String
  laser_port_switcher : Option String
  x_scaling_factor : Option ℚ
  y_scaling_factor : Option ℚ
  laser_power : Option ℚ
  duration : Option ℚ
  pattern : Option String
  wavelength : Option Int
  location_x : Option ℚ
  location_y : Option ℚ
  photoactivation_trigger : Option String
  photoactivation_source : Option String
deriving DecidableEq, Repr

/-- Fully-populated configuration record. -/
def mkConfig (xp yp lps : String) (xsf ysf lp d : ℚ) (pat : String)
    (wl : Int) (lx ly : ℚ) (pt ps : String) : Config :=
  { x_pinout := some xp, y_pinout := some yp, laser_port_switcher := some lps
    x_scaling_factor := some xsf, y_scaling_factor := some ysf
    laser_power := some lp, duration := some d, pattern := some pat
    wavelength := some wl, location_x := some lx, location_y := some ly
    photoactivation_trigger := some pt, photoactivation_source := some ps }

/-- The external collaborators of one run: the DAQ sample rate, the host's
optional shared laser-switching task (`hasattr` on the daq object and the
attribute's value), and the failure behaviour of the fallible hardware
writes the source wraps or lets propagate. -/
structure Env where
  sample_rate : ℚ
  daqHasSwitchAttr : Bool
  daqLaserSwitchingTask : Option TaskId
  writeXFails : Bool
  writeYFails : Bool
  triggerWriteFails : Bool
deriving DecidableEq, Repr

/-- The mutable attributes of the `Photoactivation` object, as initialised
by `__init__` (task handles `None`, `pattern = "point"`). -/
structure PAState where
  pattern : String := "point"
  location_x : Option ℚ := none
  location_y : Option ℚ := none
  wavelength : Option Int := none
  laser_port_switcher : Option String := none
  photoactivation_trigger : Option String := none
  photoactivation_source : Option String := none
  photoactivation_trigger_task : Option TaskId := none
  switch_task : Option TaskId := none
  x_pinout : Option String := none
  task_x : Option TaskId := none
  x_scaling_factor : Option ℚ := none
  y_pinout : Option String := none
  task_y : Option TaskId := none
  y_scaling_factor : Option ℚ := none
  duration : Option ℚ := none
  n_samples : Option Int := none
  laser_power : Option ℚ := none
deriving DecidableEq, Repr

/-- Object state plus the ambient world: the task-id allocator, the set of
ids that have been closed, and the event trace. -/
structure World where
  st : PAState := {}
  nextId : Nat := 0
  closed : List TaskId := []
  trace : List Event := []
deriving DecidableEq, Repr

def initWorld : World := {}

def emit (w : World) (e : Event) : World :=
  { w with trace := w.trace ++ [e] }

/-- `nidaqmx.Task(new_task_name)` — allocates a fresh handle. -/
def newTask (w : World) (name : String) : TaskId × World :=
  (w.nextId,
   { w with nextId := w.nextId + 1,
            trace := w.trace ++ [Event.createTask w.nextId name] })

/-- `task.close()` — records the close and marks the handle closed. -/
def closeT (w : World) (id : TaskId) : World :=
  { w with trace := w.trace ++ [Event.closeTask id],
           closed := w.closed ++ [id] }

/-- A computation that may raise: the error carries the world at the point
of the raise, since Python exceptions leave the object mutated. -/
abbrev PyResult := Except (PyError × World) World

/-- Python `int(q)`: truncation toward zero (`num.tdiv den` on the
reduced fraction). -/
def pyInt (q : ℚ) : Int := q.num.tdiv q.den

/-- `Photoactivation.get_photoactivation_parameters`: thirteen sequential
`self.<field> = self.config["<key>"]` reads; a missing key raises
`KeyError` after the earlier fields were already assigned. -/
def get_photoactivation_parameters (cfg : Config) (w : World) : PyResult := do
  let v ← match cfg.x_pinout with
    | some v => pure v | none => throw (PyError.keyError "x_pinout", w)
  let w := { w with st := { w.st with x_pinout := some v } }
  let v ← match cfg.y_pinout with
    | some v => pure v | none => throw (PyError.keyError "y_pinout", w)
  let w := { w with st := { w.st with y_pinout := some v } }
  let v ← match cfg.laser_port_switcher with
    | some v => pure v | none => throw (PyError.keyError "laser_port_switcher", w)
  let w := { w with st := { w.st with laser_port_switcher := some v } }
  let v ← match cfg.y_scaling_factor with
    | some v => pure v | none => throw (PyError.keyError "y_scaling_factor", w)
  let w := { w with st := { w.st with y_scaling_factor := some v } }
  let v ← match cfg.x_scaling_factor with
    | some v => pure v | none => throw (PyError.keyError "x_scaling_factor", w)
  let w := { w with st := { w.st with x_scaling_factor := some v } }
  let v ← match cfg.laser_power with
    | some v => pure v | none => throw (PyError.keyError "laser_power", w)
  let w := { w with st := { w.st with laser_power := some v } }
  let v ← match cfg.duration with
    | some v => pure v | none => throw (PyError.keyError "duration", w)
  let w := { w with st := { w.st with duration := some v } }
  let v ← match cfg.pattern with
    | some v => pure v | none => throw (PyError.keyError "pattern", w)
  let w := { w with st := { w.st with pattern := v } }
  let v ← match cfg.wavelength with
    | some v => pure v | none => throw (PyError.keyError "wavelength", w)
  let w := { w with st := { w.st with wavelength := some v } }
  let v ← match cfg.location_x with
    | some v => pure v | none => throw (PyError.keyError "location_x", w)
  let w := { w with st := { w.st with location_x := some v } }
  let v ← match cfg.location_y with
    | some v => pure v | none => throw (PyError.keyError "location_y", w)
  let w := { w with st := { w.st with location_y := some v } }
  let v ← match cfg.photoactivation_trigger with
    | some v => pure v | none => throw (PyError.keyError "photoactivation_trigger", w)
  let w := { w with st := { w.st with photoactivation_trigger := some v } }
  let v ← match cfg.photoactivation_source with
    | some v => pure v | none => throw (PyError.keyError "photoactivation_source", w)
  pure { w with st := { w.st with photoactivation_source := some v } }

/-- `Photoactivation.prepare_laser_switching_task`: create a new switch
task only when the daq object has no `laser_switching_task` attribute or
it is `None`; otherwise reuse the shared handle.  Either way, write the
engaged level (`True`, auto-start). -/
def prepare_laser_switching_task (env : Env) (w : World) : World :=
  let create_task : Bool :=
    if !env.daqHasSwitchAttr then true
    else env.daqLaserSwitchingTask.isNone
  let p : TaskId × World :=
    if create_task then
      let (tid, w) := newTask w "Laser Switching Task"
      let w := emit w (Event.addDoChan tid (w.st.laser_port_switcher.getD ""))
      (tid, { w with st := { w.st with switch_task := some tid } })
    else
      let tid := env.daqLaserSwitchingTask.getD 0
      (tid, { w with st := { w.st with switch_task := some tid } })
  emit p.2 (Event.writeDigitalBool p.1 true true)

/-- `Photoactivation.prepare_photoactivation_trigger_task`: create the
digital trigger task only when `self.photoactivation_trigger_task` is
`None` (the attribute is never reset after cleanup closes the task). -/
def prepare_photoactivation_trigger_task (w : World) : World :=
  match w.st.photoactivation_trigger_task with
  | some _ => w
  | none =>
    let (tid, w) := newTask w "Photoactivation Trigger"
    let w := emit w (Event.addDoChan tid (w.st.photoactivation_trigger.getD ""))
    { w with st := { w.st with photoactivation_trigger_task := some tid } }

/-- One guarded galvo-task creation block of `prepare_galvo_tasks`. -/
def makeGalvoTask (env : Env) (w : World) (existing : Option TaskId)
    (name pinout : String) (n : Int) : TaskId × World :=
  match existing with
  | some tid => (tid, w)
  | none =>
    let (tid, w) := newTask w name
    let w := emit w (Event.addAoChan tid pinout)
    let w := emit w (Event.cfgSampClk tid env.sample_rate n)
    let w := emit w (Event.cfgStartTrig tid (w.st.photoactivation_source.getD ""))
    (tid, w)

/-- The waveform construction of `prepare_galvo_tasks` lines 244-250:
`"Point"` builds the two constant buffers (`np.hstack` of an empty list
raises `ValueError`); the lowercase `"square"` and `"circle"` branches
raise `NotImplementedError`; any other pattern string matches no branch,
leaving `x_waveform`/`y_waveform` unbound (`none` here — the resulting
`NameError` surfaces at the write sites, inside their `try`). -/
def computeWaveforms (pat : String) (xv yv : ℚ) (n : Int) :
    Except PyError (Option (List ℚ) × Option (List ℚ)) :=
  if pat = "Point" then
    if n.toNat = 0 then .error PyError.valueError
    else .ok (some (List.replicate n.toNat xv), some (List.replicate n.toNat yv))
  else if pat = "square" then .error PyError.notImplementedError
  else if pat = "circle" then .error PyError.notImplementedError
  else .ok (none, none)

/-- One `try: task.write(waveform) except Exception: print warning` block.
An unbound waveform (`none`) raises `NameError` inside the `try`; a
driver-rejected write is the `fails` flag; both are caught and downgraded
to a printed warning. -/
def tryWriteWaveform (w : World) (tid : TaskId) (wf : Option (List ℚ))
    (fails : Bool) (msg : String) : World :=
  match wf with
  | none => emit w (Event.warn msg)
  | some buf => if fails then emit w (Event.warn msg)
                else emit w (Event.writeAnalog tid buf)

/-- `Photoactivation.prepare_galvo_tasks`: compute `n_samples`, create the
two analog tasks when their attributes are `None` (finite sample clock at
the DAQ rate, digital-edge start trigger on `photoactivation_source`),
build the per-axis waveforms, and write each inside its own
exception-downgrading `try` block. -/
def prepare_galvo_tasks (env : Env) (w : World) : PyResult := do
  let n : Int := pyInt (w.st.duration.getD 0 / 1000 * env.sample_rate)
  let w := { w with st := { w.st with n_samples := some n } }
  let p := makeGalvoTask env w w.st.task_x "X-Galvo - Photoactivation"
    (w.st.x_pinout.getD "") n
  let w := { p.2 with st := { p.2.st with task_x := some p.1 } }
  let q := makeGalvoTask env w w.st.task_y "Y-Galvo - Photoactivation"
    (w.st.y_pinout.getD "") n
  let w := { q.2 with st := { q.2.st with task_y := some q.1 } }
  let xv := w.st.location_x.getD 0 * w.st.x_scaling_factor.getD 0
  let yv := w.st.location_y.getD 0 * w.st.y_scaling_factor.getD 0
  match computeWaveforms w.st.pattern xv yv n with
  | .error e => throw (e, w)
  | .ok (xwf, ywf) =>
    let w := tryWriteWaveform w p.1 xwf env.writeXFails
      "Warning, could not write waveform to X Galvo"
    let w := tryWriteWaveform w q.1 ywf env.writeYFails
      "Warning, could not write waveform to Y Galvo"
    pure w

/-- `Photoactivation.pre_func_signal` — the prepare phase: snapshot the
configuration, then the laser switch, the trigger task, the galvo tasks. -/
def pre_func_signal (cfg : Config) (env : Env) (w : World) : PyResult := do
  let w ← get_photoactivation_parameters cfg w
  let w := prepare_laser_switching_task env w
  let w := prepare_photoactivation_trigger_task w
  prepare_galvo_tasks env w

/-- `Photoactivation.trigger_photoactivation_laser`: set the addressed
laser's power, then turn it on. -/
def trigger_photoactivation_laser (w : World) : World :=
  let wl := w.st.wavelength.getD 0
  let w := emit w (Event.setPower wl (w.st.laser_power.getD 0))
  emit w (Event.turnOn wl)

/-- `Photoactivation.perform_photoactivation`: pulse the trigger line
`[False, True, True, True, False]` with auto-start (a driver rejection
here propagates — there is no `try` around it), then for each galvo task
wait until done, stop it, and close it. -/
def perform_photoactivation (env : Env) (w : World) : PyResult := do
  match w.st.photoactivation_trigger_task with
  | none => throw (PyError.attributeError, w)
  | some tid =>
    if env.triggerWriteFails then throw (PyError.daqWriteError, w)
    let w := emit w (Event.writeDigitalSeq tid [false, true, true, true, false] true)
    let doGalvo (w : World) (t : Option TaskId) : PyResult :=
      match t with
      | none => throw (PyError.attributeError, w)
      | some id =>
        let w := emit w (Event.waitUntilDone id)
        let w := emit w (Event.stopTask id)
        pure (closeT w id)
    let w ← doGalvo w w.st.task_x
    doGalvo w w.st.task_y

/-- `Photoactivation.in_func_signal` — the execute phase: laser power and
on, photoactivation, laser off. -/
def in_func_signal (env : Env) (w : World) : PyResult := do
  let w := trigger_photoactivation_laser w
  let w ← perform_photoactivation env w
  pure (emit w (Event.turnOff (w.st.wavelength.getD 0)))

/-- `Photoactivation.cleanup_tasks`: write the switch line back to the
disengaged level, stop it, close it; stop and close the trigger task.
The galvo tasks are not touched.  A `None` handle raises
`AttributeError` at the attribute access. -/
def cleanup_tasks (w : World) : PyResult := do
  match w.st.switch_task with
  | none => throw (PyError.attributeError, w)
  | some sid =>
    let w := emit w (Event.writeDigitalBool sid false true)
    let w := emit w (Event.stopTask sid)
    let w := closeT w sid
    match w.st.photoactivation_trigger_task with
    | none => throw (PyError.attributeError, w)
    | some tid =>
      let w := emit w (Event.stopTask tid)
      pure (closeT w tid)

/-- `Photoactivation.cleanup_func_signal` — the cleanup phase. -/
def cleanup_func_signal (w : World) : PyResult :=
  cleanup_tasks w

/-- Modelled from the spec: the host feature-execution framework (not in
the analysed sources) drives one run through the `config_table` callbacks
— `init` (prepare), then `main` (execute) only if prepare succeeded, then
`cleanup` unconditionally, exactly once, whatever failed.  Returns the
final world and the run's error, if any. -/
def runOnce (cfg : Config) (env : Env) (w : World) : World × Option PyError :=
  match pre_func_signal cfg env w with
  | .error (e, w1) =>
    match cleanup_func_signal w1 with
    | .ok w2 => (w2, some e)
    | .error (_, w2) => (w2, some e)
  | .ok w1 =>
    match in_func_signal env w1 with
    | .error (e, w2) =>
      match cleanup_func_signal w2 with
      | .ok w3 => (w3, some e)
      | .error (_, w3) => (w3, some e)
    | .ok w2 =>
      match cleanup_func_signal w2 with
      | .ok w3 => (w3, none)
      | .error (e, w3) => (w3, some e)

/-- Two successive runs on the same feature object. -/
def runTwice (cfg : Config) (env : Env) : World × Option PyError :=
  runOnce cfg env (runOnce cfg env initWorld).1

/-- Observer: is this event a settling delay? -/
def Event.isSleep : Event → Bool
  | .sleepMs _ => true
  | _ => false

/-- The end-to-end example configuration of the specification (the GUI
controller's defaults): scaling factors 0.05 V/µm, laser power 10 %,
duration 100 ms, pattern Point, wavelength 488 nm, offsets (20, -10) µm. -/
def exampleConfig : Config :=
  mkConfig "TIRF/ao0" "TIRF/ao1" "TIRF/port1/line2" (1/20) (1/20) 10 100
    "Point" 488 20 (-10) "TIRF/port0/line0" "/TIRF/PFI5"

/-- A small-sample variant of the example configuration (duration 1 ms). -/
def smallConfig : Config :=
  mkConfig "TIRF/ao0" "TIRF/ao1" "TIRF/port1/line2" (1/20) (1/20) 10 1
    "Point" 488 20 (-10) "TIRF/port0/line0" "/TIRF/PFI5"

/-- Environment with no shared laser-switching task and no hardware
failures; sample rate 2000 Hz. -/
def plainEnv : Env := ⟨2000, false, none, false, false, false⟩

/-- Environment whose daq object already carries a shared
laser-switching task, handle 100. -/
def sharedEnv : Env := ⟨2000, true, some 100, false, false, false⟩

/-- The small configuration with the GUI-capitalized pattern "Square". -/
def squareCapConfig : Config := { smallConfig with pattern := some "Square" }

/-- The small configuration with the lowercase pattern "square" that the
source's `elif` branch actually tests. -/
def squareLowConfig : Config := { smallConfig with pattern := some "square" }

/-- The small configuration with the "pattern" key absent. -/
def missingPatternConfig : Config := { smallConfig with pattern := none }

/-- A world as left by a successful prepare phase: trigger task 1, galvo
tasks 2 and 3, wavelength 488, laser power 10. -/
def execWorld : World :=
  { st := { photoactivation_trigger_task := some 1, task_x := some 2,
            task_y := some 3, wavelength := some 488, laser_power := some 10 },
    nextId := 4 }

/-- A world holding a shared switch task 100 and a trigger task 1. -/
def cleanupWorld : World :=
  { st := { switch_task := some 100, photoactivation_trigger_task := some 1 },
    nextId := 2 }

/-! ## General characterizations of the phase functions -/

/-- For a nonnegative rational, Python truncation agrees with `⌊·⌋`. -/
theorem pyInt_eq_floor (q : ℚ) (h : 0 ≤ q) : pyInt q = ⌊q⌋ := by
  rw [pyInt, Rat.floor_def]
  exact Int.tdiv_eq_ediv (Rat.num_nonneg.mpr h) (Int.ofNat_nonneg _)

/-- Full characterization of the prepare phase on a fresh object with a
complete Point-pattern configuration and no pre-existing shared
laser-switching task. -/
theorem pre_point_spec (xp yp lps : String) (xsf ysf lp d : ℚ) (wl : Int)
    (lx ly : ℚ) (pt ps : String) (r : ℚ) (wx wy tf : Bool)
    (hn : 0 < pyInt (d / 1000 * r)) :
    pre_func_signal (mkConfig xp yp lps xsf ysf lp d "Point" wl lx ly pt ps)
      ⟨r, false, none, wx, wy, tf⟩ initWorld = .ok
      { st := { pattern := "Point", location_x := some lx, location_y := some ly,
                wavelength := some wl, laser_port_switcher := some lps,
                photoactivation_trigger := some pt, photoactivation_source := some ps,
                photoactivation_trigger_task := some 1, switch_task := some 0,
                x_pinout := some xp, task_x := some 2, x_scaling_factor := some xsf,
                y_pinout := some yp, task_y := some 3, y_scaling_factor := some ysf,
                duration := some d, n_samples := some (pyInt (d / 1000 * r)),
                laser_power := some lp },
        nextId := 4, closed := [],
        trace := [Event.createTask 0 "Laser Switching Task",
                  Event.addDoChan 0 lps,
                  Event.writeDigitalBool 0 true true,
                  Event.createTask 1 "Photoactivation Trigger",
                  Event.addDoChan 1 pt,
                  Event.createTask 2 "X-Galvo - Photoactivation",
                  Event.addAoChan 2 xp,
                  Event.cfgSampClk 2 r (pyInt (d / 1000 * r)),
                  Event.cfgStartTrig 2 ps,
                  Event.createTask 3 "Y-Galvo - Photoactivation",
                  Event.addAoChan 3 yp,
                  Event.cfgSampClk 3 r (pyInt (d / 1000 * r)),
                  Event.cfgStartTrig 3 ps,
                  (if wx then Event.warn "Warning, could not write waveform to X Galvo"
                   else Event.writeAnalog 2
                     (List.replicate (pyInt (d / 1000 * r)).toNat (lx * xsf))),
                  (if wy then Event.warn "Warning, could not write waveform to Y Galvo"
                   else Event.writeAnalog 3
                     (List.replicate (pyInt (d / 1000 * r)).toNat (ly * ysf)))] } := by
  cases wx <;> cases wy <;>
    simp [pre_func_signal, get_photoactivation_parameters, prepare_laser_switching_task,
      prepare_photoactivation_trigger_task, prepare_galvo_tasks, makeGalvoTask,
      computeWaveforms, tryWriteWaveform, newTask, emit, initWorld, mkConfig,
      hn.not_le] <;> rfl

/-- Full characterization of the prepare phase on a fresh object with a
complete configuration whose pattern is the lowercase "square" or
"circle": `NotImplementedError` is raised, but only after the
laser-switch, trigger, and both galvo tasks have been created. -/
theorem pre_notimpl_spec (xp yp lps : String) (xsf ysf lp d : ℚ) (wl : Int)
    (lx ly : ℚ) (pt ps : String) (pat : String) (r : ℚ) (wx wy tf : Bool)
    (hpat : pat = "square" ∨ pat = "circle") :
    pre_func_signal (mkConfig xp yp lps xsf ysf lp d pat wl lx ly pt ps)
      ⟨r, false, none, wx, wy, tf⟩ initWorld = .error
      (PyError.notImplementedError,
      { st := { pattern := pat, location_x := some lx, location_y := some ly,
                wavelength := some wl, laser_port_switcher := some lps,
                photoactivation_trigger := some pt, photoactivation_source := some ps,
                photoactivation_trigger_task := some 1, switch_task := some 0,
                x_pinout := some xp, task_x := some 2, x_scaling_factor := some xsf,
                y_pinout := some yp, task_y := some 3, y_scaling_factor := some ysf,
                duration := some d, n_samples := some (pyInt (d / 1000 * r)),
                laser_power := some lp },
        nextId := 4, closed := [],
        trace := [Event.createTask 0 "Laser Switching Task",
                  Event.addDoChan 0 lps,
                  Event.writeDigitalBool 0 true true,
                  Event.createTask 1 "Photoactivation Trigger",
                  Event.addDoChan 1 pt,
                  Event.createTask 2 "X-Galvo - Photoactivation",
                  Event.addAoChan 2 xp,
                  Event.cfgSampClk 2 r (pyInt (d / 1000 * r)),
                  Event.cfgStartTrig 2 ps,
                  Event.createTask 3 "Y-Galvo - Photoactivation",
                  Event.addAoChan 3 yp,
                  Event.cfgSampClk 3 r (pyInt (d / 1000 * r)),
                  Event.cfgStartTrig 3 ps] }) := by
  rcases hpat with h | h <;> subst h <;>
    simp [pre_func_signal, get_photoactivation_parameters, prepare_laser_switching_task,
      prepare_photoactivation_trigger_task, prepare_galvo_tasks, makeGalvoTask,
      computeWaveforms, tryWriteWaveform, newTask, emit, initWorld, mkConfig] <;> rfl

/-- Characterization of `perform_photoactivation` on any world whose
trigger and galvo task handles are set, when the trigger write is not
rejected: the digital pulse is written with auto-start, then each galvo
task is awaited, stopped, and closed, in order. -/
theorem perform_spec (env : Env) (w : World) (tid a b : TaskId)
    (h1 : w.st.photoactivation_trigger_task = some tid)
    (hx : w.st.task_x = some a) (hy : w.st.task_y = some b)
    (ht : env.triggerWriteFails = false) :
    perform_photoactivation env w = .ok
      { w with
        closed := w.closed ++ [a, b],
        trace := w.trace ++
          [Event.writeDigitalSeq tid [false, true, true, true, false] true,
           Event.waitUntilDone a, Event.stopTask a, Event.closeTask a,
           Event.waitUntilDone b, Event.stopTask b, Event.closeTask b] } := by
  simp [perform_photoactivation, h1, hx, hy, ht, emit, closeT]
  rfl

/-- Characterization of the execute phase on any world whose handles are
set: power, laser on, trigger pulse, per-galvo wait/stop/close, laser
off. -/
theorem in_func_spec (env : Env) (w : World) (tid a b : TaskId) (wl : Int) (lp : ℚ)
    (h1 : w.st.photoactivation_trigger_task = some tid)
    (hx : w.st.task_x = some a) (hy : w.st.task_y = some b)
    (hwl : w.st.wavelength = some wl) (hlp : w.st.laser_power = some lp)
    (ht : env.triggerWriteFails = false) :
    in_func_signal env w = .ok
      { w with
        closed := w.closed ++ [a, b],
        trace := w.trace ++
          [Event.setPower wl lp, Event.turnOn wl,
           Event.writeDigitalSeq tid [false, true, true, true, false] true,
           Event.waitUntilDone a, Event.stopTask a, Event.closeTask a,
           Event.waitUntilDone b, Event.stopTask b, Event.closeTask b,
           Event.turnOff wl] } := by
  simp [in_func_signal, trigger_photoactivation_laser, perform_photoactivation,
    h1, hx, hy, hwl, hlp, ht, emit, closeT]
  rfl

/-- Characterization of the cleanup phase on any world whose switch-task
and trigger-task handles are set: the switch line is written back to
false and the switch task is stopped AND closed (shared or not), then
the trigger task is stopped and closed; the galvo tasks are not
touched. -/
theorem cleanup_spec (w : World) (s t : TaskId)
    (hs : w.st.switch_task = some s)
    (h1 : w.st.photoactivation_trigger_task = some t) :
    cleanup_func_signal w = .ok
      { w with
        closed := w.closed ++ [s, t],
        trace := w.trace ++
          [Event.writeDigitalBool s false true, Event.stopTask s, Event.closeTask s,
           Event.stopTask t, Event.closeTask t] } := by
  simp [cleanup_func_signal, cleanup_tasks, hs, h1, emit, closeT]
  rfl

/-- Full characterization of a host-driven run (prepare, execute, cleanup)
on a fresh object with a complete Point configuration and no shared
switch task: the run succeeds; the galvo tasks 2 and 3 are closed by the
execute phase and the switch task 0 and trigger task 1 by cleanup. -/
theorem runOnce_point_spec (xp yp lps : String) (xsf ysf lp d : ℚ) (wl : Int)
    (lx ly : ℚ) (pt ps : String) (r : ℚ) (wx wy : Bool)
    (hn : 0 < pyInt (d / 1000 * r)) :
    runOnce (mkConfig xp yp lps xsf ysf lp d "Point" wl lx ly pt ps)
      ⟨r, false, none, wx, wy, false⟩ initWorld =
      ({ st := { pattern := "Point", location_x := some lx, location_y := some ly,
                 wavelength := some wl, laser_port_switcher := some lps,
                 photoactivation_trigger := some pt, photoactivation_source := some ps,
                 photoactivation_trigger_task := some 1, switch_task := some 0,
                 x_pinout := some xp, task_x := some 2, x_scaling_factor := some xsf,
                 y_pinout := some yp, task_y := some 3, y_scaling_factor := some ysf,
                 duration := some d, n_samples := some (pyInt (d / 1000 * r)),
                 laser_power := some lp },
         nextId := 4, closed := [2, 3, 0, 1],
         trace := [Event.createTask 0 "Laser Switching Task",
                   Event.addDoChan 0 lps,
                   Event.writeDigitalBool 0 true true,
                   Event.createTask 1 "Photoactivation Trigger",
                   Event.addDoChan 1 pt,
                   Event.createTask 2 "X-Galvo - Photoactivation",
                   Event.addAoChan 2 xp,
                   Event.cfgSampClk 2 r (pyInt (d / 1000 * r)),
                   Event.cfgStartTrig 2 ps,
                   Event.createTask 3 "Y-Galvo - Photoactivation",
                   Event.addAoChan 3 yp,
                   Event.cfgSampClk 3 r (pyInt (d / 1000 * r)),
                   Event.cfgStartTrig 3 ps,
                   (if wx then Event.warn "Warning, could not write waveform to X Galvo"
                    else Event.writeAnalog 2
                      (List.replicate (pyInt (d / 1000 * r)).toNat (lx * xsf))),
                   (if wy then Event.warn "Warning, could not write waveform to Y Galvo"
                    else Event.writeAnalog 3
                      (List.replicate (pyInt (d / 1000 * r)).toNat (ly * ysf))),
                   Event.setPower wl lp, Event.turnOn wl,
                   Event.writeDigitalSeq 1 [false, true, true, true, false] true,
                   Event.waitUntilDone 2, Event.stopTask 2, Event.closeTask 2,
                   Event.waitUntilDone 3, Event.stopTask 3, Event.closeTask 3,
                   Event.turnOff wl,
                   Event.writeDigitalBool 0 false true, Event.stopTask 0,
                   Event.closeTask 0, Event.stopTask 1, Event.closeTask 1] },
       none) := by
  have h1 := pre_point_spec xp yp lps xsf ysf lp d wl lx ly pt ps r wx wy false hn
  simp only [runOnce, h1]
  rw [in_func_spec _ _ 1 2 3 wl lp rfl rfl rfl rfl rfl rfl]
  dsimp only
  rw [cleanup_spec _ 0 1 rfl rfl]
  simp

/-- Characterization of a second prepare phase on a world whose task
handles are already set (as after a previous run): the snapshot is
re-read, a fresh switch task is created at the next free id, the guarded
trigger/galvo creations are all skipped, and the waveforms are written to
the existing (possibly closed) galvo handles. -/
theorem pre_reuse_spec (w : World) (xp yp lps : String) (xsf ysf lp d : ℚ)
    (wl : Int) (lx ly : ℚ) (pt ps : String) (r : ℚ) (tid a b : TaskId)
    (hn : 0 < pyInt (d / 1000 * r))
    (h1 : w.st.photoactivation_trigger_task = some tid)
    (hx : w.st.task_x = some a) (hy : w.st.task_y = some b) :
    pre_func_signal (mkConfig xp yp lps xsf ysf lp d "Point" wl lx ly pt ps)
      ⟨r, false, none, false, false, false⟩ w = .ok
      { w with
        st := { w.st with
                  pattern := "Point"
                  location_x := some lx
                  location_y := some ly
                  wavelength := some wl
                  laser_port_switcher := some lps
                  photoactivation_trigger := some pt
                  photoactivation_source := some ps
                  switch_task := some w.nextId
                  x_pinout := some xp
                  x_scaling_factor := some xsf
                  y_pinout := some yp
                  y_scaling_factor := some ysf
                  duration := some d
                  n_samples := some (pyInt (d / 1000 * r))
                  laser_power := some lp }
        nextId := w.nextId + 1
        trace := w.trace ++
          [Event.createTask w.nextId "Laser Switching Task",
           Event.addDoChan w.nextId lps,
           Event.writeDigitalBool w.nextId true true,
           Event.writeAnalog a (List.replicate (pyInt (d / 1000 * r)).toNat (lx * xsf)),
           Event.writeAnalog b (List.replicate (pyInt (d / 1000 * r)).toNat (ly * ysf))] } := by
  simp [pre_func_signal, get_photoactivation_parameters, prepare_laser_switching_task,
    prepare_photoactivation_trigger_task, prepare_galvo_tasks, makeGalvoTask,
    computeWaveforms, tryWriteWaveform, newTask, emit, mkConfig,
    h1, hx, hy, hn.not_le]
  rfl


/-! ## Claim theorems -/

/-- C1: For every valid parameter snapshot with pattern = Point, the prepare
phase computes for each axis a constant waveform of length
`n_samples = ⌊duration_ms / 1000 * sample_rate⌋` in which every sample
equals `location * scaling_factor` for that axis. -/
theorem C1_point_waveform_constant (xp yp lps : String) (xsf ysf lp d : ℚ)
    (wl : Int) (lx ly : ℚ) (pt ps : String) (r : ℚ)
    (hq : 0 ≤ d / 1000 * r) (hn : 0 < pyInt (d / 1000 * r)) :
    ∃ w, pre_func_signal (mkConfig xp yp lps xsf ysf lp d "Point" wl lx ly pt ps)
        ⟨r, false, none, false, false, false⟩ initWorld = .ok w ∧
      w.st.n_samples = some ⌊d / 1000 * r⌋ ∧
      Event.writeAnalog 2 (List.replicate (⌊d / 1000 * r⌋).toNat (lx * xsf)) ∈ w.trace ∧
      Event.writeAnalog 3 (List.replicate (⌊d / 1000 * r⌋).toNat (ly * ysf)) ∈ w.trace := by
  rw [← pyInt_eq_floor _ hq]
  refine ⟨_, pre_point_spec xp yp lps xsf ysf lp d wl lx ly pt ps r
    false false false hn, rfl, ?_, ?_⟩ <;> simp

/-- Witness for C1: the specification's end-to-end example — duration
100 ms at 10 kHz gives 1000 samples; x is constantly 20 µm · 0.05 V/µm
= 1 V and y constantly -10 µm · 0.05 V/µm = -0.5 V. -/
theorem C1_point_waveform_constant_witness :
    ∃ w, pre_func_signal
        (mkConfig "TIRF/ao0" "TIRF/ao1" "TIRF/port1/line2" (1/20) (1/20) 10 100
          "Point" 488 20 (-10) "TIRF/port0/line0" "/TIRF/PFI5")
        ⟨10000, false, none, false, false, false⟩ initWorld = .ok w ∧
      w.st.n_samples = some ⌊(100 : ℚ) / 1000 * 10000⌋ ∧
      Event.writeAnalog 2
        (List.replicate (⌊(100 : ℚ) / 1000 * 10000⌋).toNat ((20 : ℚ) * (1/20))) ∈ w.trace ∧
      Event.writeAnalog 3
        (List.replicate (⌊(100 : ℚ) / 1000 * 10000⌋).toNat ((-10 : ℚ) * (1/20))) ∈ w.trace :=
  C1_point_waveform_constant "TIRF/ao0" "TIRF/ao1" "TIRF/port1/line2"
    (1/20) (1/20) 10 100 488 20 (-10) "TIRF/port0/line0" "/TIRF/PFI5" 10000
    (by norm_num) (by decide)

/-- C8: For every configuration record missing at least one of the 13
required keys, loading the parameter snapshot fails with a missing-key
error, and no hardware call occurs before the failure: the error world's
trace is empty, because the snapshot is read first in the prepare phase,
before any hardware resource is touched. -/
theorem C8_missing_key_fails_before_hardware (cfg : Config) (env : Env)
    (h : cfg.x_pinout = none ∨ cfg.y_pinout = none ∨
         cfg.laser_port_switcher = none ∨ cfg.x_scaling_factor = none ∨
         cfg.y_scaling_factor = none ∨ cfg.laser_power = none ∨
         cfg.duration = none ∨ cfg.pattern = none ∨ cfg.wavelength = none ∨
         cfg.location_x = none ∨ cfg.location_y = none ∨
         cfg.photoactivation_trigger = none ∨
         cfg.photoactivation_source = none) :
    ∃ k w, pre_func_signal cfg env initWorld = .error (PyError.keyError k, w) ∧
      w.trace = [] := by
  obtain ⟨o1, o2, o3, o4, o5, o6, o7, o8, o9, o10, o11, o12, o13⟩ := cfg
  cases o1 with
  | none => exact ⟨_, _, rfl, rfl⟩
  | some v1 =>
  cases o2 with
  | none => exact ⟨_, _, rfl, rfl⟩
  | some v2 =>
  cases o3 with
  | none => exact ⟨_, _, rfl, rfl⟩
  | some v3 =>
  cases o5 with
  | none => exact ⟨_, _, rfl, rfl⟩
  | some v5 =>
  cases o4 with
  | none => exact ⟨_, _, rfl, rfl⟩
  | some v4 =>
  cases o6 with
  | none => exact ⟨_, _, rfl, rfl⟩
  | some v6 =>
  cases o7 with
  | none => exact ⟨_, _, rfl, rfl⟩
  | some v7 =>
  cases o8 with
  | none => exact ⟨_, _, rfl, rfl⟩
  | some v8 =>
  cases o9 with
  | none => exact ⟨_, _, rfl, rfl⟩
  | some v9 =>
  cases o10 with
  | none => exact ⟨_, _, rfl, rfl⟩
  | some v10 =>
  cases o11 with
  | none => exact ⟨_, _, rfl, rfl⟩
  | some v11 =>
  cases o12 with
  | none => exact ⟨_, _, rfl, rfl⟩
  | some v12 =>
  cases o13 with
  | none => exact ⟨_, _, rfl, rfl⟩
  | some v13 => simp at h

/-- Witness for C8: the small example configuration with the "pattern"
key removed fails with exactly that key and an empty trace. -/
theorem C8_missing_key_fails_before_hardware_witness :
    ∃ k w, pre_func_signal missingPatternConfig plainEnv initWorld =
        .error (PyError.keyError k, w) ∧ w.trace = [] :=
  C8_missing_key_fails_before_hardware missingPatternConfig plainEnv
    (by decide)


/-- C5: In every execution of the execute phase, set_power on the laser
addressed by the snapshot's wavelength is called before turn_on, and
turn_off on that laser is called exactly once, after the completion wait
returns — regardless of the waveform-write failure flags, which the
execute phase never consults. -/
theorem C5_set_power_before_on_off_once_after_wait (env : Env) (w : World)
    (tid a b : TaskId) (wl : Int) (lp : ℚ)
    (h1 : w.st.photoactivation_trigger_task = some tid)
    (hx : w.st.task_x = some a) (hy : w.st.task_y = some b)
    (hwl : w.st.wavelength = some wl) (hlp : w.st.laser_power = some lp)
    (ht : env.triggerWriteFails = false) :
    ∃ w', in_func_signal env w = .ok w' ∧
      w'.trace = w.trace ++ [Event.setPower wl lp, Event.turnOn wl,
        Event.writeDigitalSeq tid [false, true, true, true, false] true,
        Event.waitUntilDone a, Event.stopTask a, Event.closeTask a,
        Event.waitUntilDone b, Event.stopTask b, Event.closeTask b,
        Event.turnOff wl] ∧
      (w'.trace.drop w.trace.length)[0]? = some (Event.setPower wl lp) ∧
      (w'.trace.drop w.trace.length)[1]? = some (Event.turnOn wl) ∧
      (w'.trace.drop w.trace.length)[3]? = some (Event.waitUntilDone a) ∧
      (w'.trace.drop w.trace.length)[6]? = some (Event.waitUntilDone b) ∧
      (w'.trace.drop w.trace.length)[9]? = some (Event.turnOff wl) ∧
      (w'.trace.drop w.trace.length).count (Event.turnOff wl) = 1 := by
  refine ⟨_, in_func_spec env w tid a b wl lp h1 hx hy hwl hlp ht,
    rfl, ?_, ?_, ?_, ?_, ?_, ?_⟩ <;>
    simp [List.drop_left, List.count_cons]

/-- Witness for C5: a prepared world with trigger task 1, galvo tasks 2
and 3, laser 488 at power 10. -/
theorem C5_set_power_before_on_off_once_after_wait_witness :
    ∃ w', in_func_signal plainEnv execWorld = .ok w' ∧
      w'.trace = execWorld.trace ++ [Event.setPower 488 10, Event.turnOn 488,
        Event.writeDigitalSeq 1 [false, true, true, true, false] true,
        Event.waitUntilDone 2, Event.stopTask 2, Event.closeTask 2,
        Event.waitUntilDone 3, Event.stopTask 3, Event.closeTask 3,
        Event.turnOff 488] ∧
      (w'.trace.drop execWorld.trace.length)[0]? = some (Event.setPower 488 10) ∧
      (w'.trace.drop execWorld.trace.length)[1]? = some (Event.turnOn 488) ∧
      (w'.trace.drop execWorld.trace.length)[3]? = some (Event.waitUntilDone 2) ∧
      (w'.trace.drop execWorld.trace.length)[6]? = some (Event.waitUntilDone 3) ∧
      (w'.trace.drop execWorld.trace.length)[9]? = some (Event.turnOff 488) ∧
      (w'.trace.drop execWorld.trace.length).count (Event.turnOff 488) = 1 :=
  C5_set_power_before_on_off_once_after_wait plainEnv execWorld 1 2 3 488 10
    rfl rfl rfl rfl rfl rfl

/-- C6: In every execute phase, the photoactivation-trigger digital task
is written the sequence [low, high, high, high, low] with auto-start as
the first hardware action, and the sequencer then blocks on each analog
galvo task's completion before proceeding to stop/close it. -/
theorem C6_trigger_pulse_then_block (env : Env) (w : World) (tid a b : TaskId)
    (h1 : w.st.photoactivation_trigger_task = some tid)
    (hx : w.st.task_x = some a) (hy : w.st.task_y = some b)
    (ht : env.triggerWriteFails = false) :
    ∃ w', perform_photoactivation env w = .ok w' ∧
      w'.trace = w.trace ++
        [Event.writeDigitalSeq tid [false, true, true, true, false] true,
         Event.waitUntilDone a, Event.stopTask a, Event.closeTask a,
         Event.waitUntilDone b, Event.stopTask b, Event.closeTask b] ∧
      (w'.trace.drop w.trace.length)[0]? =
        some (Event.writeDigitalSeq tid [false, true, true, true, false] true) ∧
      (w'.trace.drop w.trace.length)[1]? = some (Event.waitUntilDone a) ∧
      (w'.trace.drop w.trace.length)[4]? = some (Event.waitUntilDone b) := by
  refine ⟨_, perform_spec env w tid a b h1 hx hy ht, rfl, ?_, ?_, ?_⟩ <;>
    simp [List.drop_left]

/-- Witness for C6: the prepared example world. -/
theorem C6_trigger_pulse_then_block_witness :
    ∃ w', perform_photoactivation plainEnv execWorld = .ok w' ∧
      w'.trace = execWorld.trace ++
        [Event.writeDigitalSeq 1 [false, true, true, true, false] true,
         Event.waitUntilDone 2, Event.stopTask 2, Event.closeTask 2,
         Event.waitUntilDone 3, Event.stopTask 3, Event.closeTask 3] ∧
      (w'.trace.drop execWorld.trace.length)[0]? =
        some (Event.writeDigitalSeq 1 [false, true, true, true, false] true) ∧
      (w'.trace.drop execWorld.trace.length)[1]? = some (Event.waitUntilDone 2) ∧
      (w'.trace.drop execWorld.trace.length)[4]? = some (Event.waitUntilDone 3) :=
  C6_trigger_pulse_then_block plainEnv execWorld 1 2 3 rfl rfl rfl rfl

/-- C7: An exception in a per-channel analog waveform write is caught and
reported as a warning, not re-raised: prepare still succeeds with both
writes failing, and the full host-driven run completes without error.
The downgrade applies only to the waveform writes — a failing trigger
write in the execute phase propagates as the run's failure. -/
theorem C7_waveform_write_error_downgraded (xp yp lps : String)
    (xsf ysf lp d : ℚ) (wl : Int) (lx ly : ℚ) (pt ps : String) (r : ℚ)
    (wE : World) (tid : TaskId) (fenv : Env)
    (hn : 0 < pyInt (d / 1000 * r))
    (htid : wE.st.photoactivation_trigger_task = some tid)
    (htf : fenv.triggerWriteFails = true) :
    (∃ w, pre_func_signal (mkConfig xp yp lps xsf ysf lp d "Point" wl lx ly pt ps)
        ⟨r, false, none, true, true, false⟩ initWorld = .ok w ∧
      Event.warn "Warning, could not write waveform to X Galvo" ∈ w.trace ∧
      Event.warn "Warning, could not write waveform to Y Galvo" ∈ w.trace) ∧
    (runOnce (mkConfig xp yp lps xsf ysf lp d "Point" wl lx ly pt ps)
        ⟨r, false, none, true, true, false⟩ initWorld).2 = none ∧
    perform_photoactivation fenv wE = .error (PyError.daqWriteError, wE) := by
  refine ⟨⟨_, pre_point_spec xp yp lps xsf ysf lp d wl lx ly pt ps r
    true true false hn, ?_, ?_⟩, ?_, ?_⟩
  · simp
  · simp
  · rw [runOnce_point_spec xp yp lps xsf ysf lp d wl lx ly pt ps r true true hn]
  · simp [perform_photoactivation, htid, htf]
    rfl

/-- Witness for C7: the small example with both analog writes failing and
a prepared world whose trigger write is rejected. -/
theorem C7_waveform_write_error_downgraded_witness :
    (∃ w, pre_func_signal
        (mkConfig "TIRF/ao0" "TIRF/ao1" "TIRF/port1/line2" (1/20) (1/20) 10 1
          "Point" 488 20 (-10) "TIRF/port0/line0" "/TIRF/PFI5")
        ⟨2000, false, none, true, true, false⟩ initWorld = .ok w ∧
      Event.warn "Warning, could not write waveform to X Galvo" ∈ w.trace ∧
      Event.warn "Warning, could not write waveform to Y Galvo" ∈ w.trace) ∧
    (runOnce (mkConfig "TIRF/ao0" "TIRF/ao1" "TIRF/port1/line2" (1/20) (1/20) 10 1
          "Point" 488 20 (-10) "TIRF/port0/line0" "/TIRF/PFI5")
        ⟨2000, false, none, true, true, false⟩ initWorld).2 = none ∧
    perform_photoactivation ⟨2000, false, none, false, false, true⟩ execWorld =
      .error (PyError.daqWriteError, execWorld) :=
  C7_waveform_write_error_downgraded "TIRF/ao0" "TIRF/ao1" "TIRF/port1/line2"
    (1/20) (1/20) 10 1 488 20 (-10) "TIRF/port0/line0" "/TIRF/PFI5" 2000
    execWorld 1 ⟨2000, false, none, false, false, true⟩
    (by decide) rfl rfl


/-- Counterexample to C2: with the GUI-capitalized pattern "Square"
(the value the controller's widget list supplies), prepare() does not
fail at all — the lowercase branch tests never match, the unbound
waveform's NameError surfaces inside the write `try` blocks and is
downgraded to warnings — and the switch, trigger and both galvo tasks
are all created. -/
theorem C2_counterexample_square_prepare_succeeds :
    (pre_func_signal squareCapConfig plainEnv initWorld).toOption.isSome = true ∧
    Event.createTask 0 "Laser Switching Task" ∈
      ((pre_func_signal squareCapConfig plainEnv initWorld).toOption.getD initWorld).trace ∧
    Event.createTask 1 "Photoactivation Trigger" ∈
      ((pre_func_signal squareCapConfig plainEnv initWorld).toOption.getD initWorld).trace ∧
    Event.createTask 2 "X-Galvo - Photoactivation" ∈
      ((pre_func_signal squareCapConfig plainEnv initWorld).toOption.getD initWorld).trace ∧
    Event.createTask 3 "Y-Galvo - Photoactivation" ∈
      ((pre_func_signal squareCapConfig plainEnv initWorld).toOption.getD initWorld).trace ∧
    Event.warn "Warning, could not write waveform to X Galvo" ∈
      ((pre_func_signal squareCapConfig plainEnv initWorld).toOption.getD initWorld).trace ∧
    Event.warn "Warning, could not write waveform to Y Galvo" ∈
      ((pre_func_signal squareCapConfig plainEnv initWorld).toOption.getD initWorld).trace := by
  decide

/-- C2 (amended): prepare() raises NotImplementedError only for the
lowercase pattern strings "square" and "circle" that the source's elif
branches test — and even then only after the laser-switch, trigger, and
both galvo tasks have been created; the capitalized GUI values do not
fail at all. -/
theorem C2_amended_lowercase_fails_after_tasks (xp yp lps : String)
    (xsf ysf lp d : ℚ) (wl : Int) (lx ly : ℚ) (pt ps : String) (pat : String)
    (r : ℚ) (wx wy tf : Bool) (hpat : pat = "square" ∨ pat = "circle") :
    ∃ w, pre_func_signal (mkConfig xp yp lps xsf ysf lp d pat wl lx ly pt ps)
        ⟨r, false, none, wx, wy, tf⟩ initWorld =
      .error (PyError.notImplementedError, w) ∧
      Event.createTask 0 "Laser Switching Task" ∈ w.trace ∧
      Event.createTask 1 "Photoactivation Trigger" ∈ w.trace ∧
      Event.createTask 2 "X-Galvo - Photoactivation" ∈ w.trace ∧
      Event.createTask 3 "Y-Galvo - Photoactivation" ∈ w.trace := by
  refine ⟨_, pre_notimpl_spec xp yp lps xsf ysf lp d wl lx ly pt ps pat r
    wx wy tf hpat, ?_, ?_, ?_, ?_⟩ <;> simp

/-- Witness for the amended C2: the small example with pattern "square". -/
theorem C2_amended_lowercase_fails_after_tasks_witness :
    ∃ w, pre_func_signal
        (mkConfig "TIRF/ao0" "TIRF/ao1" "TIRF/port1/line2" (1/20) (1/20) 10 1
          "square" 488 20 (-10) "TIRF/port0/line0" "/TIRF/PFI5")
        ⟨2000, false, none, false, false, false⟩ initWorld =
      .error (PyError.notImplementedError, w) ∧
      Event.createTask 0 "Laser Switching Task" ∈ w.trace ∧
      Event.createTask 1 "Photoactivation Trigger" ∈ w.trace ∧
      Event.createTask 2 "X-Galvo - Photoactivation" ∈ w.trace ∧
      Event.createTask 3 "Y-Galvo - Photoactivation" ∈ w.trace :=
  C2_amended_lowercase_fails_after_tasks "TIRF/ao0" "TIRF/ao1" "TIRF/port1/line2"
    (1/20) (1/20) 10 1 488 20 (-10) "TIRF/port0/line0" "/TIRF/PFI5" "square" 2000
    false false false (Or.inl rfl)

/-- Counterexample to C3: cleanup does close the laser-switch task.  In a
run that reuses the shared switch task 100, cleanup stops AND closes it,
and a second run closes the same shared handle a second time. -/
theorem C3_counterexample_cleanup_closes_shared_switch :
    Event.closeTask 100 ∈ (runOnce smallConfig sharedEnv initWorld).1.trace ∧
    (100 : TaskId) ∈ (runOnce smallConfig sharedEnv initWorld).1.closed ∧
    (runTwice smallConfig sharedEnv).1.trace.count (Event.closeTask 100) = 2 := by
  decide

/-- C3 (amended): cleanup_tasks always writes the disengaged level, stops,
and CLOSES the laser-switch task — it does not distinguish a shared from
a created handle — and then stops and closes the trigger task; hence two
successive runs over the same shared switch task close it twice. -/
theorem C3_amended_cleanup_always_closes_switch (w : World) (s t : TaskId)
    (hs : w.st.switch_task = some s)
    (h1 : w.st.photoactivation_trigger_task = some t) :
    ∃ w2, cleanup_func_signal w = .ok w2 ∧
      w2.trace = w.trace ++
        [Event.writeDigitalBool s false true, Event.stopTask s, Event.closeTask s,
         Event.stopTask t, Event.closeTask t] ∧
      w2.closed = w.closed ++ [s, t] :=
  ⟨_, cleanup_spec w s t hs h1, rfl, rfl⟩

/-- Witness for the amended C3: a world holding the shared switch task
100 and trigger task 1. -/
theorem C3_amended_cleanup_always_closes_switch_witness :
    ∃ w2, cleanup_func_signal cleanupWorld = .ok w2 ∧
      w2.trace = cleanupWorld.trace ++
        [Event.writeDigitalBool 100 false true, Event.stopTask 100,
         Event.closeTask 100, Event.stopTask 1, Event.closeTask 1] ∧
      w2.closed = cleanupWorld.closed ++ [100, 1] :=
  C3_amended_cleanup_always_closes_switch cleanupWorld 100 1 rfl rfl

/-- Counterexample to C4: when prepare fails partway (lowercase pattern
"square" raises after task creation), the host still runs cleanup, but
the galvo tasks created during prepare are never stopped or closed — only
the switch and trigger tasks are released. -/
theorem C4_counterexample_galvo_tasks_leak :
    (runOnce squareLowConfig plainEnv initWorld).2 =
      some PyError.notImplementedError ∧
    Event.createTask 2 "X-Galvo - Photoactivation" ∈
      (runOnce squareLowConfig plainEnv initWorld).1.trace ∧
    Event.createTask 3 "Y-Galvo - Photoactivation" ∈
      (runOnce squareLowConfig plainEnv initWorld).1.trace ∧
    Event.stopTask 2 ∉ (runOnce squareLowConfig plainEnv initWorld).1.trace ∧
    Event.closeTask 2 ∉ (runOnce squareLowConfig plainEnv initWorld).1.trace ∧
    Event.stopTask 3 ∉ (runOnce squareLowConfig plainEnv initWorld).1.trace ∧
    Event.closeTask 3 ∉ (runOnce squareLowConfig plainEnv initWorld).1.trace ∧
    (2 : TaskId) ∉ (runOnce squareLowConfig plainEnv initWorld).1.closed ∧
    (3 : TaskId) ∉ (runOnce squareLowConfig plainEnv initWorld).1.closed := by
  decide

/-- C4 (amended): cleanup runs once per run even when prepare raised, and
it stops and closes the laser-switch task (closing it despite the claimed
sharing exemption) and the trigger task; but it never stops or closes the
analog galvo tasks — those are released only by the execute phase, so
after a prepare failure they remain open. -/
theorem C4_amended_cleanup_releases_switch_trigger_only (xp yp lps : String)
    (xsf ysf lp d : ℚ) (wl : Int) (lx ly : ℚ) (pt ps : String) (r : ℚ)
    (wx wy tf : Bool) :
    ∃ w, runOnce (mkConfig xp yp lps xsf ysf lp d "square" wl lx ly pt ps)
        ⟨r, false, none, wx, wy, tf⟩ initWorld =
      (w, some PyError.notImplementedError) ∧
      Event.createTask 2 "X-Galvo - Photoactivation" ∈ w.trace ∧
      Event.createTask 3 "Y-Galvo - Photoactivation" ∈ w.trace ∧
      Event.stopTask 0 ∈ w.trace ∧ Event.closeTask 0 ∈ w.trace ∧
      Event.stopTask 1 ∈ w.trace ∧ Event.closeTask 1 ∈ w.trace ∧
      Event.stopTask 2 ∉ w.trace ∧ Event.closeTask 2 ∉ w.trace ∧
      Event.stopTask 3 ∉ w.trace ∧ Event.closeTask 3 ∉ w.trace ∧
      w.closed = [0, 1] := by
  have h1 := pre_notimpl_spec xp yp lps xsf ysf lp d wl lx ly pt ps "square" r
    wx wy tf (Or.inl rfl)
  simp only [runOnce, h1]
  rw [cleanup_spec _ 0 1 rfl rfl]
  dsimp only
  refine ⟨_, rfl, ?_, ?_, ?_, ?_, ?_, ?_, ?_, ?_, ?_, ?_, rfl⟩ <;> simp

/-- Counterexample to C9: in the prepare trace of the small Point example
the event immediately after the engaged switch write is the trigger-task
creation, and no settling-delay event occurs anywhere in the run. -/
theorem C9_counterexample_no_delay_event :
    ((pre_func_signal smallConfig plainEnv initWorld).toOption.getD initWorld).trace[2]? =
      some (Event.writeDigitalBool 0 true true) ∧
    ((pre_func_signal smallConfig plainEnv initWorld).toOption.getD initWorld).trace[3]? =
      some (Event.createTask 1 "Photoactivation Trigger") ∧
    (((pre_func_signal smallConfig plainEnv initWorld).toOption.getD
        initWorld).trace.all fun e => !e.isSleep) = true := by
  decide

/-- C9 (amended): no settling delay is performed: after the laser-switch
task is written the engaged level, the very next hardware operation is
the trigger-task creation, and the prepare phase emits no sleep at
all. -/
theorem C9_amended_no_settling_delay (xp yp lps : String) (xsf ysf lp d : ℚ)
    (wl : Int) (lx ly : ℚ) (pt ps : String) (r : ℚ) (wx wy tf : Bool)
    (hn : 0 < pyInt (d / 1000 * r)) :
    ∃ w, pre_func_signal (mkConfig xp yp lps xsf ysf lp d "Point" wl lx ly pt ps)
        ⟨r, false, none, wx, wy, tf⟩ initWorld = .ok w ∧
      w.trace[2]? = some (Event.writeDigitalBool 0 true true) ∧
      w.trace[3]? = some (Event.createTask 1 "Photoactivation Trigger") ∧
      (w.trace.all fun e => !e.isSleep) = true := by
  refine ⟨_, pre_point_spec xp yp lps xsf ysf lp d wl lx ly pt ps r wx wy tf hn,
    rfl, rfl, ?_⟩
  cases wx <;> cases wy <;> simp [Event.isSleep]

/-- Witness for the amended C9: the small Point example. -/
theorem C9_amended_no_settling_delay_witness :
    ∃ w, pre_func_signal
        (mkConfig "TIRF/ao0" "TIRF/ao1" "TIRF/port1/line2" (1/20) (1/20) 10 1
          "Point" 488 20 (-10) "TIRF/port0/line0" "/TIRF/PFI5")
        ⟨2000, false, none, false, false, false⟩ initWorld = .ok w ∧
      w.trace[2]? = some (Event.writeDigitalBool 0 true true) ∧
      w.trace[3]? = some (Event.createTask 1 "Photoactivation Trigger") ∧
      (w.trace.all fun e => !e.isSleep) = true :=
  C9_amended_no_settling_delay "TIRF/ao0" "TIRF/ao1" "TIRF/port1/line2"
    (1/20) (1/20) 10 1 488 20 (-10) "TIRF/port0/line0" "/TIRF/PFI5" 2000
    false false false (by decide)

/-- C10: After a full successful run, the task attributes still hold the
now-closed handles (execute closed the galvo tasks 2 and 3, cleanup the
trigger task 1), and since nothing resets them to None, a second
prepare() on the same object creates no new trigger or galvo task — only
a fresh switch task — and writes its waveforms to the handles the
previous run closed. -/
theorem C10_second_run_reuses_closed_handles (xp yp lps : String)
    (xsf ysf lp d : ℚ) (wl : Int) (lx ly : ℚ) (pt ps : String) (r : ℚ)
    (hn : 0 < pyInt (d / 1000 * r)) :
    ∃ w1 w2, runOnce (mkConfig xp yp lps xsf ysf lp d "Point" wl lx ly pt ps)
        ⟨r, false, none, false, false, false⟩ initWorld = (w1, none) ∧
      pre_func_signal (mkConfig xp yp lps xsf ysf lp d "Point" wl lx ly pt ps)
        ⟨r, false, none, false, false, false⟩ w1 = .ok w2 ∧
      w1.closed = [2, 3, 0, 1] ∧
      w2.st.photoactivation_trigger_task = some 1 ∧ (1 : TaskId) ∈ w1.closed ∧
      w2.st.task_x = some 2 ∧ (2 : TaskId) ∈ w1.closed ∧
      w2.st.task_y = some 3 ∧ (3 : TaskId) ∈ w1.closed ∧
      w2.trace = w1.trace ++
        [Event.createTask 4 "Laser Switching Task", Event.addDoChan 4 lps,
         Event.writeDigitalBool 4 true true,
         Event.writeAnalog 2 (List.replicate (pyInt (d / 1000 * r)).toNat (lx * xsf)),
         Event.writeAnalog 3 (List.replicate (pyInt (d / 1000 * r)).toNat (ly * ysf))] := by
  refine ⟨_, _,
    runOnce_point_spec xp yp lps xsf ysf lp d wl lx ly pt ps r false false hn,
    pre_reuse_spec _ xp yp lps xsf ysf lp d wl lx ly pt ps r 1 2 3 hn rfl rfl rfl,
    rfl, rfl, by simp, rfl, by simp, rfl, by simp, rfl⟩

/-- Witness for C10: the small Point example run twice. -/
theorem C10_second_run_reuses_closed_handles_witness :
    ∃ w1 w2, runOnce
        (mkConfig "TIRF/ao0" "TIRF/ao1" "TIRF/port1/line2" (1/20) (1/20) 10 1
          "Point" 488 20 (-10) "TIRF/port0/line0" "/TIRF/PFI5")
        ⟨2000, false, none, false, false, false⟩ initWorld = (w1, none) ∧
      pre_func_signal
        (mkConfig "TIRF/ao0" "TIRF/ao1" "TIRF/port1/line2" (1/20) (1/20) 10 1
          "Point" 488 20 (-10) "TIRF/port0/line0" "/TIRF/PFI5")
        ⟨2000, false, none, false, false, false⟩ w1 = .ok w2 ∧
      w1.closed = [2, 3, 0, 1] ∧
      w2.st.photoactivation_trigger_task = some 1 ∧ (1 : TaskId) ∈ w1.closed ∧
      w2.st.task_x = some 2 ∧ (2 : TaskId) ∈ w1.closed ∧
      w2.st.task_y = some 3 ∧ (3 : TaskId) ∈ w1.closed ∧
      w2.trace = w1.trace ++
        [Event.createTask 4 "Laser Switching Task",
         Event.addDoChan 4 "TIRF/port1/line2",
         Event.writeDigitalBool 4 true true,
         Event.writeAnalog 2
           (List.replicate (pyInt ((1 : ℚ) / 1000 * 2000)).toNat ((20 : ℚ) * (1/20))),
         Event.writeAnalog 3
           (List.replicate (pyInt ((1 : ℚ) / 1000 * 2000)).toNat ((-10 : ℚ) * (1/20)))] :=
  C10_second_run_reuses_closed_handles "TIRF/ao0" "TIRF/ao1" "TIRF/port1/line2"
    (1/20) (1/20) 10 1 488 20 (-10) "TIRF/port0/line0" "/TIRF/PFI5" 2000
    (by decide)

end Photoactivation
